import Mathlib

/-!
Verification of the portfolio 3D-viewer application.

The development shallowly embeds the decision logic of the repository:

* `src/utils/PerformanceOptimizer.ts` (device capability probe):
  `PerformanceOptimizer.isMobile`, `isLowEndDevice`, `getOptimalSettings`;
* `src/main.ts`: renderer initialization with WebGPU→WebGL fallback
  (`initializeRenderer`, `initWebGLRenderer`), scene composition
  (`setupLighting`, `createPlane`, `createShaderCube`, `loadBurgerModel`
  callbacks), the top-level constructor / bootstrap (`App` constructor and
  the top-level try/catch), and the per-frame animation tick (`animate`).

Device signals read from the browser (`navigator`, `window`) are passed
explicitly as a `DeviceSignals` record.  JavaScript numbers are modelled
exactly: configuration values by `ℚ`, animated real-valued quantities
(positions, colors, intensities driven by `Math.sin`/`Math.cos`) by `ℝ`.
An absent `navigator.deviceMemory` is `Option.none`; in JavaScript the
comparison `undefined <= 2` evaluates to `false`, which the embedding
reproduces.
-/

/-- Device signals the probe reads from the browser runtime:
`navigator.hardwareConcurrency`, `navigator.deviceMemory` (possibly
undefined), `navigator.userAgent`, `window.devicePixelRatio`. -/
structure DeviceSignals where
  hardwareConcurrency : Nat
  deviceMemory : Option ℚ
  userAgent : String
  devicePixelRatio : ℚ

/-- Result record of `PerformanceOptimizer.getOptimalSettings`. -/
structure PerformanceProfile where
  pixelRatio : ℚ
  shadowMapSize : Nat
  antialiasing : Bool
  shadows : Bool
  fog : Bool
  postProcessing : Bool
deriving DecidableEq

/-- Alternatives of the mobile user-agent regular expression
`/Android|webOS|iPhone|iPad|iPod|BlackBerry|IEMobile|Opera Mini/i`. -/
def mobilePatterns : List String :=
  ["Android", "webOS", "iPhone", "iPad", "iPod", "BlackBerry", "IEMobile",
   "Opera Mini"]

/-- Lower-cased character list of a string (the `i` regex flag makes the
match case-insensitive; all pattern characters are ASCII). -/
def lowerChars (s : String) : List Char :=
  s.toList.map Char.toLower

/-- `hasSub pat s` holds when `pat` occurs as a contiguous substring of
`s` — the semantics of `RegExp.test` for an alternation of literals. -/
def hasSub (pat : List Char) : List Char → Bool
  | [] => pat.isEmpty
  | c :: rest => pat.isPrefixOf (c :: rest) || hasSub pat rest

namespace PerformanceOptimizer

/-- `PerformanceOptimizer.isMobile`: tests the user agent against the
mobile pattern. -/
def isMobile (sig : DeviceSignals) : Bool :=
  mobilePatterns.any fun p => hasSub (lowerChars p) (lowerChars sig.userAgent)

/-- JavaScript semantics of `(navigator as any).deviceMemory <= 2`:
`false` when `deviceMemory` is undefined. -/
def deviceMemoryLe2 : Option ℚ → Bool
  | none => false
  | some m => decide (m ≤ 2)

/-- `PerformanceOptimizer.isLowEndDevice`:
`navigator.hardwareConcurrency <= 2 || (navigator as any).deviceMemory <= 2 || this.isMobile()`. -/
def isLowEndDevice (sig : DeviceSignals) : Bool :=
  decide (sig.hardwareConcurrency ≤ 2) || deviceMemoryLe2 sig.deviceMemory ||
    isMobile sig

/-- `PerformanceOptimizer.getOptimalSettings`, returning the literal
records of the source. -/
def getOptimalSettings (sig : DeviceSignals) : PerformanceProfile :=
  let isMobile := isMobile sig
  let isLowEnd := isLowEndDevice sig
  if isLowEnd || isMobile then
    { pixelRatio := min sig.devicePixelRatio 1.5
      shadowMapSize := 512
      antialiasing := false
      shadows := false
      fog := true
      postProcessing := false }
  else
    { pixelRatio := min sig.devicePixelRatio 2
      shadowMapSize := 2048
      antialiasing := true
      shadows := true
      fog := true
      postProcessing := true }

end PerformanceOptimizer

/-- Spec-side low-end/mobile profile, written from the specification's
words (pixel ratio capped at 1.5, 512-unit shadow map, antialiasing,
shadows and post-processing off, fog on). -/
def specLowEndProfile (dpr : ℚ) : PerformanceProfile :=
  { pixelRatio := min dpr 1.5
    shadowMapSize := 512
    antialiasing := false
    shadows := false
    fog := true
    postProcessing := false }

/-- Spec-side full-featured profile, written from the specification's
words (pixel ratio capped at 2, 2048-unit shadow map, all visual features
on). -/
def specFullProfile (dpr : ℚ) : PerformanceProfile :=
  { pixelRatio := min dpr 2
    shadowMapSize := 2048
    antialiasing := true
    shadows := true
    fog := true
    postProcessing := true }

/-- Helper: the mobile disjunct is absorbed by `isLowEndDevice`. -/
theorem lowEnd_or_mobile (sig : DeviceSignals) :
    (PerformanceOptimizer.isLowEndDevice sig || PerformanceOptimizer.isMobile sig)
      = PerformanceOptimizer.isLowEndDevice sig := by
  unfold PerformanceOptimizer.isLowEndDevice
  cases decide (sig.hardwareConcurrency ≤ 2) <;>
    cases PerformanceOptimizer.deviceMemoryLe2 sig.deviceMemory <;>
    cases PerformanceOptimizer.isMobile sig <;> rfl

/-- C1: the capability probe classifies a device as low-end exactly when
logical processors ≤ 2, or device memory is present and ≤ 2, or the
user agent matches the mobile pattern; the low-end profile is
{min(dpr,1.5), 512, no antialiasing, no shadows, fog, no post-processing}
and the full profile is {min(dpr,2), 2048, all features on, fog}. -/
theorem getOptimalSettings_policy (sig : DeviceSignals) :
    (PerformanceOptimizer.isLowEndDevice sig = true ↔
      sig.hardwareConcurrency ≤ 2 ∨
        (∃ m, sig.deviceMemory = some m ∧ m ≤ 2) ∨
        PerformanceOptimizer.isMobile sig = true) ∧
    PerformanceOptimizer.getOptimalSettings sig =
      (if PerformanceOptimizer.isLowEndDevice sig then
        specLowEndProfile sig.devicePixelRatio
      else
        specFullProfile sig.devicePixelRatio) := by
  constructor
  · unfold PerformanceOptimizer.isLowEndDevice
    cases hm : sig.deviceMemory with
    | none =>
        simp [PerformanceOptimizer.deviceMemoryLe2, hm]
    | some m =>
        simp [PerformanceOptimizer.deviceMemoryLe2, hm, or_assoc]
  · simp only [PerformanceOptimizer.getOptimalSettings, lowEnd_or_mobile]
    cases PerformanceOptimizer.isLowEndDevice sig <;>
      simp [specLowEndProfile, specFullProfile]

/-- C9: when `deviceMemory` is undefined the memory comparison is false,
so classification is decided by the processor count and the user agent
alone; with more than 2 logical processors and a non-mobile user agent
the full-featured profile is returned. -/
theorem undefined_deviceMemory_policy (sig : DeviceSignals)
    (hm : sig.deviceMemory = none) :
    (PerformanceOptimizer.isLowEndDevice sig
       = (decide (sig.hardwareConcurrency ≤ 2) || PerformanceOptimizer.isMobile sig)) ∧
    (2 < sig.hardwareConcurrency → PerformanceOptimizer.isMobile sig = false →
      PerformanceOptimizer.getOptimalSettings sig =
        specFullProfile sig.devicePixelRatio) := by
  constructor
  · unfold PerformanceOptimizer.isLowEndDevice
    rw [hm]
    simp [PerformanceOptimizer.deviceMemoryLe2]
  · intro hc hmob
    have hlow : PerformanceOptimizer.isLowEndDevice sig = false := by
      unfold PerformanceOptimizer.isLowEndDevice
      rw [hm, hmob]
      simp [PerformanceOptimizer.deviceMemoryLe2, Nat.not_le.mpr hc]
    simp only [PerformanceOptimizer.getOptimalSettings, hlow, hmob]
    rfl

/-- Concrete desktop-style device signals: 8 logical processors, no
`deviceMemory` value, a non-mobile user agent, pixel ratio 1. -/
def desktopSignals : DeviceSignals :=
  { hardwareConcurrency := 8
    deviceMemory := none
    userAgent := "Mozilla/5.0 (X11; Linux x86_64)"
    devicePixelRatio := 1 }

theorem undefined_deviceMemory_policy_witness :
    desktopSignals.deviceMemory = none ∧
    ((PerformanceOptimizer.isLowEndDevice desktopSignals
       = (decide (desktopSignals.hardwareConcurrency ≤ 2) ||
           PerformanceOptimizer.isMobile desktopSignals)) ∧
     (2 < desktopSignals.hardwareConcurrency →
       PerformanceOptimizer.isMobile desktopSignals = false →
       PerformanceOptimizer.getOptimalSettings desktopSignals =
         specFullProfile desktopSignals.devicePixelRatio)) :=
  ⟨rfl, undefined_deviceMemory_policy desktopSignals rfl⟩

/-- The two renderer backends `App.renderer` can hold. -/
inductive RendererHandle
  | webgpu
  | webgl
deriving DecidableEq

/-- Outcome of the asynchronous WebGPU construction/initialization
attempt inside the `try` block of `App.initializeRenderer`: the
`new WebGPURenderer(...)` call may throw, and `await renderer.init()`
may reject. -/
inductive WebGPUAttempt
  | success
  | constructorThrows (e : String)
  | initRejects (e : String)
deriving DecidableEq

/-- Semantics of the `try` body: `new WebGPURenderer` followed by
`await this.renderer.init()`; a throw or a rejected promise surfaces as
an exception at the `await`. -/
def attemptWebGPU : WebGPUAttempt → Except String RendererHandle
  | .success => .ok .webgpu
  | .constructorThrows e => .error e
  | .initRejects e => .error e

/-- `App.initWebGLRenderer`: constructs the WebGL fallback renderer. -/
def initWebGLRenderer : RendererHandle := .webgl

/-- `App.initializeRenderer`: if `WebGPU.isAvailable()`, try the WebGPU
path and on any caught exception fall back to `initWebGLRenderer`;
otherwise use `initWebGLRenderer` directly.  The `Except` result records
whether an exception propagates to the caller. -/
def initializeRenderer (webgpuAvailable : Bool) (attempt : WebGPUAttempt) :
    Except String RendererHandle :=
  if webgpuAvailable then
    match attemptWebGPU attempt with
    | .ok h => .ok h
    | .error _ => .ok initWebGLRenderer
  else
    .ok initWebGLRenderer

/-- C2: for every availability outcome and every outcome of the
asynchronous WebGPU construction/initialization, `initializeRenderer`
terminates with exactly one handle and never propagates an exception;
the handle is WebGPU exactly when the backend was available and the
attempt succeeded, and WebGL in every other case. -/
theorem initializeRenderer_total_fallback (webgpuAvailable : Bool)
    (attempt : WebGPUAttempt) :
    ∃ h : RendererHandle,
      initializeRenderer webgpuAvailable attempt = .ok h ∧
      (h = .webgpu ↔ webgpuAvailable = true ∧ attempt = .success) ∧
      (h = .webgpu ∨ h = .webgl) := by
  cases webgpuAvailable <;> cases attempt <;>
    exact ⟨_, rfl, by simp [initializeRenderer, attemptWebGPU, initWebGLRenderer], by simp [initializeRenderer, attemptWebGPU, initWebGLRenderer]⟩

/-- Error message thrown by the `App` constructor when the canvas
element with id `three-canvas` is absent. -/
def canvasErrorMessage : String := "Canvas element not found"

/-- Plain-text failure notice the top-level `catch` writes into
`document.body.innerHTML`. -/
def failureBodyHtml : String :=
  "<div style=\"color: red; text-align: center; margin-top: 50px;\">Failed to initialize WebGL/WebGPU renderer. Please check browser compatibility.</div>"

/-- Synchronous state established by the `App` constructor once the
canvas check has passed: scene with exponential fog, performance
settings from the probe, camera at (3, 3, 3). -/
structure ConstructedApp where
  fogSet : Bool
  performanceSettings : PerformanceProfile
  cameraPosition : ℚ × ℚ × ℚ
deriving DecidableEq

/-- The `App` constructor: throws `canvasErrorMessage` when
`document.getElementById` finds no canvas, otherwise initializes the
scene, fog, performance settings and camera. -/
def constructApp (canvasPresent : Bool) (sig : DeviceSignals) :
    Except String ConstructedApp :=
  if canvasPresent then
    .ok { fogSet := true
          performanceSettings := PerformanceOptimizer.getOptimalSettings sig
          cameraPosition := (3, 3, 3) }
  else
    .error canvasErrorMessage

/-- State of `document.body` after the top-level initializer ran. -/
inductive DocumentBody
  | original
  | replaced (html : String)
deriving DecidableEq

/-- The top-level `try { new App() } catch` block: on a constructor
throw it replaces the document body with the fixed failure notice. -/
def bootstrap (canvasPresent : Bool) (sig : DeviceSignals) : DocumentBody :=
  match constructApp canvasPresent sig with
  | .ok _ => .original
  | .error _ => .replaced failureBodyHtml

/-- C7: with the canvas absent, construction throws the fixed error, the
top-level initializer catches it and replaces the document body with the
fixed plain-text failure notice; with the canvas present construction
proceeds past the check and returns an app state. -/
theorem missing_canvas_fails_fast (sig : DeviceSignals) :
    constructApp false sig = .error canvasErrorMessage ∧
    bootstrap false sig = .replaced failureBodyHtml ∧
    (∃ app, constructApp true sig = .ok app) ∧
    bootstrap true sig = .original := by
  exact ⟨rfl, rfl, ⟨_, rfl⟩, rfl⟩

/-- Kinds of nodes `main.ts` adds directly to `this.scene` (the light
sphere is a child of the point light, not of the scene; the plane uses
`CircleGeometry`, i.e. a disk). -/
inductive SceneNode
  | ambientLight
  | pointLight
  | groundDisk
  | shaderCube
  | modelRoot
deriving DecidableEq

/-- The cube material `this.shaderMaterial`: a `RawShaderMaterial` with
`uniforms = \x7b time, color \x7d` on the WebGL shader path, or a
`MeshStandardMaterial` (no `uniforms` property) with color, emissive
color and emissive intensity on the WebGPU path and on the WebGL
fallback path. -/
inductive MaterialState
  | raw (time : ℝ) (color : ℝ × ℝ × ℝ)
  | standard (color : ℝ × ℝ × ℝ) (emissive : ℝ × ℝ × ℝ)
      (emissiveIntensity : ℝ)

/-- Mutable application state the animation-relevant methods of `App`
touch: the active backend flag, the scene children, the cube material,
the point-light position, and the console log. -/
structure AppState where
  isWebGPU : Bool
  scene : List SceneNode
  shaderMaterial : Option MaterialState
  pointLightPos : ℝ × ℝ × ℝ
  log : List String

/-- `THREE.Color(0xff6b6b)` as normalized RGB. -/
noncomputable def colorFF6B6B : ℝ × ℝ × ℝ := (255 / 255, 107 / 255, 107 / 255)

/-- `THREE.Color(0xff3333)` as normalized RGB. -/
noncomputable def colorFF3333 : ℝ × ℝ × ℝ := (255 / 255, 51 / 255, 51 / 255)

/-- `THREE.Color(0x330000)` as normalized RGB. -/
noncomputable def color330000 : ℝ × ℝ × ℝ := (51 / 255, 0, 0)

/-- App state right after `initializeRenderer` chose a backend: empty
scene, no cube material yet, point light at the `THREE.PointLight`
default origin. -/
noncomputable def initialAppState (isWebGPU : Bool) : AppState :=
  { isWebGPU := isWebGPU
    scene := []
    shaderMaterial := none
    pointLightPos := (0, 0, 0)
    log := [] }

/-- `App.setupLighting`: adds the ambient light and the point light
(placed at (5, 5, 5)); the visible light sphere is added as a child of
the point light, not of the scene. -/
noncomputable def setupLighting (s : AppState) : AppState :=
  { s with
    scene := s.scene ++ [.ambientLight, .pointLight]
    pointLightPos := (5, 5, 5) }

/-- `App.createPlane`: adds the ground disk (`CircleGeometry`). -/
def createPlane (s : AppState) : AppState :=
  { s with scene := s.scene ++ [.groundDisk] }

/-- `App.createShaderCube`: picks the cube material by backend — an
animated `MeshStandardMaterial` on WebGPU; on WebGL a
`RawShaderMaterial` with `time = 0.0` and `color = 0xff6b6b` uniforms,
falling back to a `MeshStandardMaterial` (color `0xff6b6b`, emissive
`0x330000`, intensity 0.2) when the raw-shader construction throws —
and adds the cube mesh to the scene. -/
noncomputable def createShaderCube (rawShaderThrows : Bool) (s : AppState) :
    AppState :=
  let mat :=
    if s.isWebGPU then
      MaterialState.standard colorFF6B6B colorFF3333 0.3
    else if rawShaderThrows then
      MaterialState.standard colorFF6B6B color330000 0.2
    else
      MaterialState.raw 0 colorFF6B6B
  { s with
    shaderMaterial := some mat
    scene := s.scene ++ [.shaderCube] }

/-- Success callback of `loader.load` in `App.loadBurgerModel`: attaches
the loaded model's root to the scene. -/
def loadBurgerModelSuccess (s : AppState) : AppState :=
  { s with scene := s.scene ++ [.modelRoot] }

/-- Error callback of `loader.load` in `App.loadBurgerModel`:
`console.error` only — no placeholder, no retry, no other mutation. -/
def loadBurgerModelError (e : String) (s : AppState) : AppState :=
  { s with log := s.log ++ [e] }

/-- Scene composition as `App.init` performs it (lighting, ground disk,
shader cube, then the asynchronous model load resolving successfully or
not). -/
noncomputable def composeScene (isWebGPU rawShaderThrows modelLoads : Bool) :
    AppState :=
  let s := createShaderCube rawShaderThrows
    (createPlane (setupLighting (initialAppState isWebGPU)))
  if modelLoads then loadBurgerModelSuccess s else s

/-- Helper: the children `composeScene` leaves in the scene graph. -/
theorem composeScene_scene (g r l : Bool) :
    (composeScene g r l).scene =
      [.ambientLight, .pointLight, .groundDisk, .shaderCube] ++
        (if l then [.modelRoot] else []) := by
  cases l <;> rfl

/-- C5: after scene composition the scene holds exactly one ambient
light, one point light, one ground disk, one shader cube, and — exactly
when the model load resolved successfully — the model root. -/
theorem composeScene_counts (g r l : Bool) :
    (composeScene g r l).scene.count SceneNode.ambientLight = 1 ∧
    (composeScene g r l).scene.count SceneNode.pointLight = 1 ∧
    (composeScene g r l).scene.count SceneNode.groundDisk = 1 ∧
    (composeScene g r l).scene.count SceneNode.shaderCube = 1 ∧
    (composeScene g r l).scene.count SceneNode.modelRoot =
      (if l then 1 else 0) := by
  rw [composeScene_scene]
  cases l <;> exact ⟨rfl, rfl, rfl, rfl, rfl⟩

/-- C6: the model-load error callback only appends to the console log;
backend flag, scene children, cube material and light position are
untouched, and the composed scene without a successful load does not
contain the model root. -/
theorem loadBurgerModelError_only_logs (e : String) (s : AppState)
    (g r : Bool) :
    (loadBurgerModelError e s).isWebGPU = s.isWebGPU ∧
    (loadBurgerModelError e s).scene = s.scene ∧
    (loadBurgerModelError e s).shaderMaterial = s.shaderMaterial ∧
    (loadBurgerModelError e s).pointLightPos = s.pointLightPos ∧
    (loadBurgerModelError e s).log = s.log ++ [e] ∧
    SceneNode.modelRoot ∉ (loadBurgerModelError e (composeScene g r false)).scene := by
  refine ⟨rfl, rfl, rfl, rfl, rfl, ?_⟩
  show SceneNode.modelRoot ∉ (composeScene g r false).scene
  rw [composeScene_scene]
  decide

/-- Orbit radius of the point light (`const radius = 2`). -/
noncomputable def lightRadius : ℝ := 2

/-- Material-animation step of `App.animate` at seconds-scaled time `t`
(`time = Date.now() * 0.001`): on WebGPU with a `MeshStandardMaterial`
it sets `emissiveIntensity = 0.2 + wave * 0.4` with
`wave = sin(time * 3) * 0.5 + 0.5` and
`color = (colorWave, colorWave * 0.4, colorWave * 0.4)` with
`colorWave = sin(time * 2) * 0.3 + 0.7`; on WebGL with a material
carrying a `uniforms` object it assigns `uniforms.time.value = time`;
any other combination leaves the material unchanged. -/
noncomputable def matTick (isWebGPU : Bool) (t : ℝ) :
    MaterialState → MaterialState
  | MaterialState.standard c e ei =>
      if isWebGPU then
        MaterialState.standard
          (Real.sin (t * 2) * 0.3 + 0.7,
            (Real.sin (t * 2) * 0.3 + 0.7) * 0.4,
            (Real.sin (t * 2) * 0.3 + 0.7) * 0.4)
          e
          (0.2 + (Real.sin (t * 3) * 0.5 + 0.5) * 0.4)
      else
        MaterialState.standard c e ei
  | MaterialState.raw time c =>
      if isWebGPU then MaterialState.raw time c else MaterialState.raw t c

/-- One evaluation of the body of `App.animate` at injected seconds-scaled
time `t`: orbits the point light
(`x = cos(time) * radius`, `z = sin(time) * radius`, `y = 2`) and runs
the material-animation step when `this.shaderMaterial` is set. -/
noncomputable def tick (t : ℝ) (s : AppState) : AppState :=
  { s with
    pointLightPos := (Real.cos t * lightRadius, 2, Real.sin t * lightRadius)
    shaderMaterial := Option.map (matTick s.isWebGPU t) s.shaderMaterial }

/-- C3: the tick places the point light at
(radius·cos t, 2, radius·sin t); at t = 0 this is (2, 2, 0) and at
t = π/2 it is (0, 2, 2). -/
theorem tick_light_orbit (s : AppState) :
    (tick 0 s).pointLightPos = (2, 2, 0) ∧
    (tick (Real.pi / 2) s).pointLightPos = (0, 2, 2) ∧
    ∀ t : ℝ, (tick t s).pointLightPos =
      (lightRadius * Real.cos t, 2, lightRadius * Real.sin t) := by
  refine ⟨?_, ?_, ?_⟩
  · simp [tick, lightRadius]
  · simp [tick, lightRadius, Real.cos_pi_div_two, Real.sin_pi_div_two]
  · intro t
    simp [tick, lightRadius, mul_comm]

/-- Helper: the material-animation step is idempotent at a fixed time. -/
theorem matTick_idem (b : Bool) (t : ℝ) (m : MaterialState) :
    matTick b t (matTick b t m) = matTick b t m := by
  cases m <;> cases b <;> simp [matTick]

/-- C4: evaluating the tick twice at the same injected timestamp gives
the same state as evaluating it once — light position and all animated
material parameters are a deterministic, idempotent function of t. -/
theorem tick_idempotent (t : ℝ) (s : AppState) :
    tick t (tick t s) = tick t s := by
  cases hm : s.shaderMaterial with
  | none => simp [tick, hm]
  | some m => simp [tick, hm, matTick_idem]

/-- Helper: on the WebGL backend a `MeshStandardMaterial` cube material
(no `uniforms` property) is never changed by any number of ticks. -/
theorem foldl_tick_standard_material (ts : List ℝ) (s : AppState)
    (hw : s.isWebGPU = false) (c e : ℝ × ℝ × ℝ) (ei : ℝ)
    (hm : s.shaderMaterial = some (MaterialState.standard c e ei)) :
    (ts.foldl (fun st u => tick u st) s).shaderMaterial
      = some (MaterialState.standard c e ei) := by
  induction ts generalizing s with
  | nil => simpa using hm
  | cons u rest ih =>
      simp only [List.foldl_cons]
      exact ih (tick u s) (by simp [tick, hw]) (by simp [tick, hm, hw, matTick])

/-- C8: when the raw-shader construction threw on the WebGL path, the
fallback `MeshStandardMaterial` keeps its construction-time color
`0xff6b6b`, emissive `0x330000` and emissive intensity 0.2 across every
sequence of frame ticks — both animation branches are skipped. -/
theorem webgl_fallback_material_static (s : AppState) (ts : List ℝ)
    (hw : s.isWebGPU = false) :
    (createShaderCube true s).shaderMaterial
      = some (MaterialState.standard colorFF6B6B color330000 0.2) ∧
    (ts.foldl (fun st u => tick u st) (createShaderCube true s)).shaderMaterial
      = some (MaterialState.standard colorFF6B6B color330000 0.2) := by
  have hmat : (createShaderCube true s).shaderMaterial
      = some (MaterialState.standard colorFF6B6B color330000 0.2) := by
    simp [createShaderCube, hw]
  exact ⟨hmat,
    foldl_tick_standard_material ts (createShaderCube true s)
      (by simp [createShaderCube, hw]) _ _ _ hmat⟩

/-- Concrete app state on the WebGL backend, before scene composition. -/
noncomputable def sampleWebGLState : AppState :=
  { isWebGPU := false
    scene := []
    shaderMaterial := none
    pointLightPos := (0, 0, 0)
    log := [] }

theorem webgl_fallback_material_static_witness :
    sampleWebGLState.isWebGPU = false ∧
    ((createShaderCube true sampleWebGLState).shaderMaterial
       = some (MaterialState.standard colorFF6B6B color330000 0.2) ∧
     (([0, 1] : List ℝ).foldl (fun st u => tick u st)
         (createShaderCube true sampleWebGLState)).shaderMaterial
       = some (MaterialState.standard colorFF6B6B color330000 0.2)) :=
  ⟨rfl, webgl_fallback_material_static sampleWebGLState [0, 1] rfl⟩

/-- C10: on the WebGPU native-material path the tick sets
`emissiveIntensity = 0.2 + (sin(3t)·0.5 + 0.5)·0.4 ∈ [0.2, 0.6]`, the
red channel to `sin(2t)·0.3 + 0.7 ∈ [0.4, 1.0]`, and green and blue to
0.4 times the red channel. -/
theorem webgpu_material_bounds (t : ℝ) (c e : ℝ × ℝ × ℝ) (ei : ℝ) :
    matTick true t (MaterialState.standard c e ei) =
      MaterialState.standard
        (Real.sin (t * 2) * 0.3 + 0.7,
          (Real.sin (t * 2) * 0.3 + 0.7) * 0.4,
          (Real.sin (t * 2) * 0.3 + 0.7) * 0.4)
        e
        (0.2 + (Real.sin (t * 3) * 0.5 + 0.5) * 0.4) ∧
    (0.2 : ℝ) ≤ 0.2 + (Real.sin (t * 3) * 0.5 + 0.5) * 0.4 ∧
    0.2 + (Real.sin (t * 3) * 0.5 + 0.5) * 0.4 ≤ 0.6 ∧
    (0.4 : ℝ) ≤ Real.sin (t * 2) * 0.3 + 0.7 ∧
    Real.sin (t * 2) * 0.3 + 0.7 ≤ 1 := by
  refine ⟨by simp [matTick], ?_, ?_, ?_, ?_⟩
  · nlinarith [Real.neg_one_le_sin (t * 3), Real.sin_le_one (t * 3)]
  · nlinarith [Real.neg_one_le_sin (t * 3), Real.sin_le_one (t * 3)]
  · nlinarith [Real.neg_one_le_sin (t * 2), Real.sin_le_one (t * 2)]
  · nlinarith [Real.neg_one_le_sin (t * 2), Real.sin_le_one (t * 2)]
